import Mathlib

/-!
Model of a single-user personal finance tracker (`app.py`): a flat-file
transaction store (`load_data` / `save_data`), aggregation queries over the
in-memory pandas table (Dashboard totals, the Analisi monthly series, wallet
series, category breakdown, salary-vs-expenses split), the Transazioni
add-operation handler, and the monthly report composition
(`genera_report_pdf`).

Modelling conventions: amounts (`Importo`) are exact rationals, calendar
dates are year/month/day triples, a pandas `DataFrame` is a list of rows in
order, `NaT` is `none`.  Pandas `to_datetime(..., errors="coerce")` is
modelled restricted to ISO-8601 date strings, the only format the app's own
serializer (`to_json(date_format="iso")`) emits; any other string coerces to
`NaT`.
-/

/-- Calendar date as held in the `Data` column (pandas `Timestamp`; the app
never uses time of day). -/
structure Date where
  year : Nat
  month : Nat
  day : Nat
  deriving DecidableEq, Repr

/-- Gregorian leap year. -/
def bisestile (y : Nat) : Bool :=
  y % 4 == 0 && (y % 100 != 0 || y % 400 == 0)

/-- Days in month `m` of year `y` in the Gregorian calendar. -/
def giorniMese (y m : Nat) : Nat :=
  if m = 2 then (if bisestile y then 29 else 28)
  else if m = 4 ∨ m = 6 ∨ m = 9 ∨ m = 11 then 30
  else 31

/-- Valid calendar dates representable as pandas nanosecond timestamps
(1678–2261 are the full years inside the `Timestamp` range). -/
def Date.valid (d : Date) : Bool :=
  decide (1678 ≤ d.year ∧ d.year ≤ 2261 ∧ 1 ≤ d.month ∧ d.month ≤ 12 ∧
    1 ≤ d.day ∧ d.day ≤ giorniMese d.year d.month)

/-- One row of the in-memory table `df`, columns
`Data, Portafoglio, Tipo, Categoria, Descrizione, Importo`.  `data` is
`none` when the cell holds `NaT` (a date that failed to parse on load). -/
structure Transaction where
  data : Option Date
  portafoglio : String
  tipo : String
  categoria : String
  descrizione : String
  importo : ℚ
  deriving DecidableEq, Repr

/-- `df['Data'].dt.to_period('M').dt.to_timestamp()` (app.py lines 48 and
227): the month-start timestamp of a row's date, modelled as the
(year, month) pair; `NaT` stays missing. -/
def annoMese (t : Transaction) : Option (Nat × Nat) :=
  t.data.map fun d => (d.year, d.month)

/-- `df[cond]["Importo"].sum()`: filter the table, sum the amounts. -/
def somma (df : List Transaction) (p : Transaction → Bool) : ℚ :=
  ((df.filter p).map Transaction.importo).sum

/-- The decimal digit character for `k < 10`. -/
def cifra (k : Nat) : Char := Char.ofNat (48 + k)

/-- Numeric value of a digit character. -/
def valCifra (c : Char) : Nat := c.toNat - 48

/-- `to_json(..., date_format="iso")` writes a day-precision timestamp as
`YYYY-MM-DDT00:00:00.000`. -/
def isoOfDate (d : Date) : String :=
  ⟨[cifra (d.year / 1000 % 10), cifra (d.year / 100 % 10),
    cifra (d.year / 10 % 10), cifra (d.year % 10), '-',
    cifra (d.month / 10 % 10), cifra (d.month % 10), '-',
    cifra (d.day / 10 % 10), cifra (d.day % 10),
    'T', '0', '0', ':', '0', '0', ':', '0', '0', '.', '0', '0', '0']⟩

/-- Time-of-day part accepted after the `T` separator of an ISO string:
`HH:MM:SS` with an optional 3-digit fraction (the shape the serializer
emits; field-range checks on the time of day are elided, the app only ever
writes zeros there). -/
def valTime : List Char → Bool
  | [h1, h2, ':', m1, m2, ':', s1, s2] =>
      h1.isDigit && h2.isDigit && m1.isDigit && m2.isDigit &&
      s1.isDigit && s2.isDigit
  | [h1, h2, ':', m1, m2, ':', s1, s2, '.', f1, f2, f3] =>
      h1.isDigit && h2.isDigit && m1.isDigit && m2.isDigit &&
      s1.isDigit && s2.isDigit && f1.isDigit && f2.isDigit && f3.isDigit
  | _ => false

/-- Assemble a date from the eight digit characters of `YYYY-MM-DD`,
rejecting non-digits and out-of-range calendar fields (pandas coerces an
out-of-bounds or invalid date to `NaT`). -/
def mkData (y1 y2 y3 y4 m1 m2 g1 g2 : Char) : Option Date :=
  if y1.isDigit && y2.isDigit && y3.isDigit && y4.isDigit &&
      m1.isDigit && m2.isDigit && g1.isDigit && g2.isDigit then
    let y := valCifra y1 * 1000 + valCifra y2 * 100 + valCifra y3 * 10 + valCifra y4
    let m := valCifra m1 * 10 + valCifra m2
    let g := valCifra g1 * 10 + valCifra g2
    if 1678 ≤ y ∧ y ≤ 2261 ∧ 1 ≤ m ∧ m ≤ 12 ∧ 1 ≤ g ∧ g ≤ giorniMese y m then
      some ⟨y, m, g⟩
    else none
  else none

/-- Model of `pd.to_datetime(cell, errors="coerce")`, restricted to ISO-8601
date strings (the only format the app's serializer writes): `YYYY-MM-DD`,
optionally followed by `T` and a time of day, parses to its calendar date;
any other string coerces to `NaT` (`none`). -/
def parseIsoDate (s : String) : Option Date :=
  match s.data with
  | [y1, y2, y3, y4, '-', m1, m2, '-', g1, g2] =>
      mkData y1 y2 y3 y4 m1 m2 g1 g2
  | y1 :: y2 :: y3 :: y4 :: '-' :: m1 :: m2 :: '-' :: g1 :: g2 :: 'T' :: resto =>
      if valTime resto then mkData y1 y2 y3 y4 m1 m2 g1 g2 else none
  | _ => none

/-- One record of the JSON storage file `finanze.json`: the date cell is a
string (or JSON `null`, written for `NaT`), the rest as in memory. -/
structure RawRow where
  data : Option String
  portafoglio : String
  tipo : String
  categoria : String
  descrizione : String
  importo : ℚ
  deriving DecidableEq, Repr

/-- State of the durable storage file: absent (`FileNotFoundError`),
present but not parseable as JSON records (`ValueError`), or a parsed
record list.  The frame `pd.read_json` builds from a record list has a
column exactly for the keys the records carry: a `RawRow` carries the six
keys the app's own serializer writes, so the parsed frame lacks the `Data`
column precisely when the record list is empty (the file containing `[]` —
which is what `to_json(orient="records")` emits for a row-less table —
parses to a column-less frame). -/
inductive Storage where
  | assente : Storage
  | malformato : Storage
  | contenuto : List RawRow → Storage
  deriving DecidableEq, Repr

/-- The uncaught exception of `load_data`: `df["Data"]` on a frame without
that column raises `KeyError`, which is not in the
`except (FileNotFoundError, ValueError)` clause at line 38. -/
inductive LoadError where
  | keyErrorData : LoadError
  deriving DecidableEq, Repr

/-- Line 36: the per-row effect of
`df["Data"] = pd.to_datetime(df["Data"], errors="coerce")` — the date cell
is coerced, every other column is kept as read. -/
def coerceRow (r : RawRow) : Transaction :=
  ⟨r.data.bind parseIsoDate, r.portafoglio, r.tipo, r.categoria,
    r.descrizione, r.importo⟩

/-- `load_data()` (lines 33–39): read the JSON file and coerce the date
column; `FileNotFoundError` and `ValueError` are caught and give the empty
table.  A parseable file whose frame has no `Data` column — the empty
record list, see `Storage` — makes `df["Data"]` raise `KeyError`, which
the `except` clause does not catch: that error escapes to the caller. -/
def load_data : Storage → Except LoadError (List Transaction)
  | Storage.assente => Except.ok []
  | Storage.malformato => Except.ok []
  | Storage.contenuto [] => Except.error LoadError.keyErrorData
  | Storage.contenuto (r :: rs) => Except.ok ((r :: rs).map coerceRow)

/-- Serialization of one row by
`df.to_json(DATA_FILE, orient="records", indent=2, date_format="iso")`:
dates become ISO strings, `NaT` becomes JSON `null`. -/
def rowOfTransaction (t : Transaction) : RawRow :=
  ⟨t.data.map isoOfDate, t.portafoglio, t.tipo, t.categoria,
    t.descrizione, t.importo⟩

/-- `save_data(df)` (lines 41–42): overwrite the storage file with the full
table, serialized record by record. -/
def save_data (df : List Transaction) : Storage :=
  Storage.contenuto (df.map rowOfTransaction)

/-- Validity of a row as the spec's round-trip claim assumes it: a valid
in-range calendar date, a non-empty description and a positive amount. -/
def Transaction.valido (t : Transaction) : Bool :=
  (match t.data with | some d => d.valid | none => false) &&
    t.descrizione != "" && decide (0 < t.importo)

/-- Chronological order on (year, month) keys, as pandas orders a
`PeriodIndex`/month-start `DatetimeIndex`. -/
def meseLe (a b : Nat × Nat) : Prop :=
  a.1 < b.1 ∨ (a.1 = b.1 ∧ a.2 ≤ b.2)

instance : DecidableRel meseLe := fun a b => by
  unfold meseLe; infer_instance

instance : IsTotal (Nat × Nat) meseLe :=
  ⟨by intro a b; unfold meseLe; omega⟩

instance : IsTrans (Nat × Nat) meseLe :=
  ⟨by intro a b c; unfold meseLe; omega⟩

/-- The distinct month keys of the table in chronological order: the group
keys every `groupby("AnnoMese", ...)` in the app produces (pandas sorts
group keys and drops the `NaT` key). -/
def meseKeys (df : List Transaction) : List (Nat × Nat) :=
  List.insertionSort meseLe (df.filterMap annoMese).dedup

/-- Income of month `m`: the `Entrata` cell of `mensile` (line 228), 0 when
the month has no income rows (`fill_value=0`). -/
def entrataMese (df : List Transaction) (m : Nat × Nat) : ℚ :=
  somma df (fun t => annoMese t == some m && t.tipo == "Entrata")

/-- Expense of month `m`: the `Uscita` cell of `mensile` (line 228). -/
def uscitaMese (df : List Transaction) (m : Nat × Nat) : ℚ :=
  somma df (fun t => annoMese t == some m && t.tipo == "Uscita")

/-- One row of the Analisi `mensile` frame (lines 228–233). -/
structure RigaMensile where
  mese : Nat × Nat
  entrata : ℚ
  uscita : ℚ
  risparmio : ℚ
  deriving DecidableEq, Repr

/-- The Analisi monthly series (lines 228–232):
`df.groupby(["AnnoMese", "Tipo"])["Importo"].sum().unstack(fill_value=0)`
with the `Risparmio = Entrata - Uscita` column. -/
def mensile (df : List Transaction) : List RigaMensile :=
  (meseKeys df).map fun m =>
    ⟨m, entrataMese df m, uscitaMese df m, entrataMese df m - uscitaMese df m⟩

/-- `Series.cumsum()`: the running sums of a list. -/
def cumsum : List ℚ → List ℚ
  | [] => []
  | x :: xs => x :: (cumsum xs).map (fun y => x + y)

/-- The `Risparmio cumulativo` column (line 233). -/
def risparmioCumulativo (df : List Transaction) : List ℚ :=
  cumsum ((mensile df).map RigaMensile.risparmio)

/-- Dashboard line 160: `df[df["Tipo"] == "Entrata"]["Importo"].sum()`. -/
def totaleEntrate (df : List Transaction) : ℚ :=
  somma df (fun t => t.tipo == "Entrata")

/-- Dashboard line 161: `df[df["Tipo"] == "Uscita"]["Importo"].sum()`. -/
def totaleUscite (df : List Transaction) : ℚ :=
  somma df (fun t => t.tipo == "Uscita")

/-- Dashboard line 162: `risparmio_totale = totale_entrate - totale_uscite`,
the savings component of `totals`. -/
def risparmioTotale (df : List Transaction) : ℚ :=
  totaleEntrate df - totaleUscite df

/-- One cell of the line-241 groupby: the month-`m` flow of wallet `p`,
`df.groupby(["AnnoMese", "Portafoglio"])["Importo"].sum()` — note the raw
`Importo` is summed whatever the row's `Tipo`. -/
def flussoPortafoglio (df : List Transaction) (m : Nat × Nat) (p : String) : ℚ :=
  somma df (fun t => annoMese t == some m && t.portafoglio == p)

/-- The wallet column `p` of `portafogli_mensili` after
`unstack(fill_value=0)` and `cumsum()` (lines 241–245): one `(month,
cumulative value)` pair per month key, months with no activity of `p`
contributing a 0 flow.  -/
def portafogliMensili (df : List Transaction) (p : String) : List ((Nat × Nat) × ℚ) :=
  (meseKeys df).zip (cumsum ((meseKeys df).map fun m => flussoPortafoglio df m p))

/-- Line 254 (and 94–95): the expense rows of month `m`,
`df[(df["Tipo"] == "Uscita") & (df["AnnoMese"] == month_start)]`. -/
def speseMese (df : List Transaction) (m : Nat × Nat) : List Transaction :=
  df.filter (fun t => t.tipo == "Uscita" && annoMese t == some m)

/-- The distinct expense categories of month `m` (the line-256 groupby
keys). -/
def categorieSpese (df : List Transaction) (m : Nat × Nat) : List String :=
  ((speseMese df m).map Transaction.categoria).dedup

/-- The summed amount of category `c` among month-`m` expenses (one cell of
the line-256 groupby). -/
def sommaCategoria (df : List Transaction) (m : Nat × Nat) (c : String) : ℚ :=
  somma (speseMese df m) (fun t => t.categoria == c)

/-- Sort key of `sort_values(ascending=False)`: amount of the left entry at
least the amount of the right one. -/
def importoGe (a b : String × ℚ) : Prop := b.2 ≤ a.2

instance : DecidableRel importoGe := fun a b => by
  unfold importoGe; infer_instance

instance : IsTotal (String × ℚ) importoGe :=
  ⟨fun a b => le_total b.2 a.2⟩

instance : IsTrans (String × ℚ) importoGe :=
  ⟨fun _ _ _ h1 h2 => le_trans h2 h1⟩

/-- Lines 256 (and 97): the category breakdown of month `m`,
`spese_mese.groupby("Categoria")["Importo"].sum().sort_values(ascending=False)`,
as the list of (category, summed amount) pairs in descending amount order. -/
def speseCategoria (df : List Transaction) (m : Nat × Nat) : List (String × ℚ) :=
  List.insertionSort importoGe
    ((categorieSpese df m).map fun c => (c, sommaCategoria df m c))

/-- Line 263 (and 110–114): the month-`m` total of the designated income
category, `df[(Tipo == "Entrata") & (Categoria == "Stipendio") & (AnnoMese
== month_start)]["Importo"].sum()`. -/
def entrateStipendio (df : List Transaction) (m : Nat × Nat) : ℚ :=
  somma df (fun t =>
    t.tipo == "Entrata" && t.categoria == "Stipendio" && annoMese t == some m)

/-- Line 264: the month-`m` total expenses,
`df[(Tipo == "Uscita") & (AnnoMese == month_start)]["Importo"].sum()`. -/
def speseTotaliMese (df : List Transaction) (m : Nat × Nat) : ℚ :=
  somma df (fun t => t.tipo == "Uscita" && annoMese t == some m)

/-- Line 266 (and 116): the remainder of the income-vs-expense split,
`rimanente = max(entrate_stipendio - spese_totali_mese, 0)`. -/
def rimanente (df : List Transaction) (m : Nat × Nat) : ℚ :=
  max (entrateStipendio df m - speseTotaliMese df m) 0

/-- Line 49: the day-level month filter of `genera_report_pdf`,
`(df['Data'].dt.year == anno) & (df['Data'].dt.month == mese)` (false on
`NaT`, as a `NaN` field equals nothing). -/
def filtroGiorno (anno mese : Nat) (t : Transaction) : Bool :=
  (t.data.map Date.year == some anno) && (t.data.map Date.month == some mese)

/-- Lines 95 and 113: the month-start filter of `genera_report_pdf`,
`df["AnnoMese"] == pd.Timestamp(year=anno, month=mese, day=1)`. -/
def filtroInizioMese (anno mese : Nat) (t : Transaction) : Bool :=
  annoMese t == some (anno, mese)

/-- The fixed wallet list `PORTAFOGLI` (line 16). -/
def PORTAFOGLI : List String := ["Isybank", "Postepay", "Paypal", "Contanti"]

/-- The form values collected by the Transazioni section (lines 179–194):
the date always comes from a date picker, so it is a calendar date. -/
structure Modulo where
  descrizione : String
  importo : ℚ
  tipo : String
  portafoglio : String
  categoria : String
  data : Date
  deriving DecidableEq, Repr

/-- The application state the add-operation handler touches: the in-memory
table and the durable storage file. -/
structure Stato where
  df : List Transaction
  storage : Storage
  deriving DecidableEq, Repr

/-- Outcome message of the add-operation handler: `st.success(...)` or the
`st.warning("Compila tutti i campi correttamente.")` rejection. -/
inductive Esito where
  | successo : Esito
  | avviso : Esito
  deriving DecidableEq, Repr

/-- Lines 196–210: the add-operation click handler.  When the description
is truthy (non-empty) and the amount strictly positive, the new row is
appended (`pd.concat`) and the whole table rewritten to storage
(`save_data`); otherwise a warning is shown and nothing changes. -/
def aggiungiOperazione (s : Stato) (f : Modulo) : Stato × Esito :=
  if f.descrizione ≠ "" ∧ 0 < f.importo then
    let nuova : Transaction :=
      ⟨some f.data, f.portafoglio, f.tipo, f.categoria, f.descrizione, f.importo⟩
    let df2 := s.df ++ [nuova]
    (⟨df2, save_data df2⟩, Esito.successo)
  else (s, Esito.avviso)

/-- The frame object handed to `genera_report_pdf`: its transaction rows
plus the derived `AnnoMese` column, which the function itself (line 48)
writes onto the very frame it was given (`none` when the column has never
been materialized). -/
structure Frame where
  rows : List Transaction
  annoMeseCol : Option (List (Option (Nat × Nat)))
  deriving DecidableEq, Repr

/-- The data content of the generated PDF (lines 53–128): wallet balances,
the three summary lines, and the data of the two optional pie charts. -/
structure Report where
  saldi : List (String × ℚ)
  totaleEntrate : ℚ
  totaleSpese : ℚ
  risparmioMese : ℚ
  tortaSpese : Option (List (String × ℚ))
  tortaStipendio : Option (ℚ × ℚ)
  deriving DecidableEq, Repr

/-- `genera_report_pdf(df, mese, anno)` (lines 47–139).  Line 48 writes the
`AnnoMese` column onto the input frame; line 49 scopes `df_mese` by the
day-level filter; an empty scope returns `None`.  Otherwise the document
carries the per-wallet balances and totals of `df_mese` (lines 54–62), the
category pie over the month-start-filtered whole frame (lines 94–107,
omitted when empty) and the salary-vs-expenses pie (lines 110–128, omitted
unless the salary total is positive; its remainder mixes the
month-start-scoped salary with the day-level-scoped `totale_spese`).  The
mutated frame is returned alongside the outcome. -/
def genera_report_pdf (fr : Frame) (mese anno : Nat) : Option Report × Frame :=
  let fr2 : Frame := { fr with annoMeseCol := some (fr.rows.map annoMese) }
  let dfMese := fr2.rows.filter (filtroGiorno anno mese)
  if dfMese = [] then (none, fr2)
  else
    let saldi := PORTAFOGLI.map fun p =>
      (p, somma dfMese (fun t => t.portafoglio == p && t.tipo == "Entrata") -
        somma dfMese (fun t => t.portafoglio == p && t.tipo == "Uscita"))
    let totaleEntrate := somma dfMese (fun t => t.tipo == "Entrata")
    let totaleSpese := somma dfMese (fun t => t.tipo == "Uscita")
    let tortaSpese :=
      if speseMese fr2.rows (anno, mese) = [] then none
      else some (speseCategoria fr2.rows (anno, mese))
    let stipendio := entrateStipendio fr2.rows (anno, mese)
    let tortaStipendio :=
      if 0 < stipendio then some (totaleSpese, max (stipendio - totaleSpese) 0)
      else none
    (some ⟨saldi, totaleEntrate, totaleSpese, totaleEntrate - totaleSpese,
      tortaSpese, tortaStipendio⟩, fr2)

/-- The three-row scenario table of spec §8 (amounts 2000, 150.50, 40). -/
def dfScenario : List Transaction :=
  [⟨some ⟨2024, 1, 5⟩, "Isybank", "Entrata", "Stipendio", "paycheck", 2000⟩,
   ⟨some ⟨2024, 1, 10⟩, "Isybank", "Uscita", "Spesa alimentare", "groceries", 301/2⟩,
   ⟨some ⟨2024, 2, 1⟩, "Postepay", "Uscita", "Trasporti", "metro", 40⟩]

/-- A stored record whose date cell does not parse as a calendar date. -/
def rigaCattiva : RawRow :=
  ⟨some "not-a-date", "Isybank", "Uscita", "Trasporti", "metro", 5⟩

/-- A table holding one single expense of 50 on wallet Isybank, 2024-01. -/
def dfSpesa : List Transaction :=
  [⟨some ⟨2024, 1, 5⟩, "Isybank", "Uscita", "Trasporti", "metro", 50⟩]

/-- A frame whose `AnnoMese` column has never been materialized. -/
def frProva : Frame := ⟨dfSpesa, none⟩

/-- A table holding one single income row of 100 whose date cell is `NaT`
(as `load_data` produces for an unparseable date). -/
def dfSenzaData : List Transaction :=
  [⟨none, "Isybank", "Entrata", "Stipendio", "bonifico", 100⟩]

lemma somma_nil (p : Transaction → Bool) : somma [] p = 0 := rfl

lemma somma_cons (t : Transaction) (df : List Transaction) (p : Transaction → Bool) :
    somma (t :: df) p = (if p t then t.importo else 0) + somma df p := by
  unfold somma
  cases h : p t <;> simp [List.filter_cons, h]

lemma somma_map_sub {α : Type} (l : List α) (f g : α → ℚ) :
    (l.map fun x => f x - g x).sum = (l.map f).sum - (l.map g).sum := by
  induction l with
  | nil => simp
  | cons x xs ih => simp only [List.map_cons, List.sum_cons, ih]; ring

lemma somma_indicatore_zero (K : List (Nat × Nat)) (m0 : Nat × Nat) (v : ℚ)
    (hm : m0 ∉ K) : (K.map fun m => if m0 = m then v else 0).sum = 0 := by
  induction K with
  | nil => simp
  | cons k K ih =>
    rw [List.map_cons, List.sum_cons, if_neg, ih fun h => hm (List.mem_cons_of_mem _ h),
      add_zero]
    exact fun h => hm (h ▸ List.mem_cons_self k K)

lemma somma_indicatore (K : List (Nat × Nat)) (m0 : Nat × Nat) (v : ℚ)
    (hnd : K.Nodup) (hm : m0 ∈ K) :
    (K.map fun m => if m0 = m then v else 0).sum = v := by
  induction K with
  | nil => cases hm
  | cons k K ih =>
    rcases List.mem_cons.mp hm with h | h
    · subst h
      rw [List.map_cons, List.sum_cons, if_pos rfl,
        somma_indicatore_zero K m0 v (List.nodup_cons.mp hnd).1, add_zero]
    · have hk : m0 ≠ k := by
        rintro rfl
        exact (List.nodup_cons.mp hnd).1 h
      rw [List.map_cons, List.sum_cons, if_neg hk, ih (List.nodup_cons.mp hnd).2 h,
        zero_add]

/-- Summing one `groupby` cell per distinct key reproduces the ungrouped
sum, provided the keys cover every row the predicate keeps. -/
lemma somma_partizione (K : List (Nat × Nat)) (hnd : K.Nodup) (p : Transaction → Bool)
    (df : List Transaction)
    (hcov : ∀ t ∈ df, p t = true → ∃ m ∈ K, annoMese t = some m) :
    (K.map fun m => somma df (fun t => annoMese t == some m && p t)).sum = somma df p := by
  induction df with
  | nil => simp [somma]
  | cons t df ih =>
    have hcov' : ∀ u ∈ df, p u = true → ∃ m ∈ K, annoMese u = some m :=
      fun u hu => hcov u (List.mem_cons_of_mem _ hu)
    simp only [somma_cons, List.sum_map_add]
    rw [ih hcov']
    congr 1
    by_cases hp : p t = true
    · obtain ⟨m0, hm0K, hm0⟩ := hcov t (List.mem_cons_self t df) hp
      rw [if_pos hp]
      have hfun : (fun m => if (annoMese t == some m && p t : Bool) then t.importo else 0) =
          fun m => if m0 = m then t.importo else 0 := by
        funext m
        rw [hm0, hp]
        by_cases hm : m0 = m <;> simp [hm]
      rw [hfun, somma_indicatore K m0 _ hnd hm0K]
    · have hf : p t = false := by simpa using hp
      rw [if_neg hp]
      simp [hf]

lemma mem_meseKeys {df : List Transaction} {t : Transaction} (ht : t ∈ df)
    {m : Nat × Nat} (hm : annoMese t = some m) : m ∈ meseKeys df := by
  unfold meseKeys
  exact ((List.perm_insertionSort meseLe _).mem_iff).mpr
    (List.mem_dedup.mpr (List.mem_filterMap.mpr ⟨t, ht, hm⟩))

lemma nodup_meseKeys (df : List Transaction) : (meseKeys df).Nodup :=
  ((List.perm_insertionSort meseLe _).nodup_iff).mpr (List.nodup_dedup _)

lemma cumsum_ne_nil {l : List ℚ} (h : l ≠ []) : cumsum l ≠ [] := by
  cases l with
  | nil => cases h rfl
  | cons x xs => simp [cumsum]

lemma cumsum_getLast {l : List ℚ} (h : l ≠ []) : (cumsum l).getLast? = some l.sum := by
  induction l with
  | nil => cases h rfl
  | cons x xs ih =>
    cases xs with
    | nil => simp [cumsum]
    | cons y ys =>
      have hxs : cumsum (y :: ys) ≠ [] := cumsum_ne_nil (by simp)
      obtain ⟨z, zs, hz⟩ := List.exists_cons_of_ne_nil hxs
      rw [cumsum, hz, List.map_cons, List.getLast?_cons_cons, ← List.map_cons, ← hz,
        List.getLast?_map, ih (by simp), Option.map_some']
      simp [add_assoc]

/-- C1 amended: on a table whose rows all carry a date, the per-month
savings of the Analisi monthly series sum to the Dashboard `totals`
savings, and on a non-empty such table the final cumulative savings value
equals that same total (months grouped by calendar year+month, a missing
kind contributing 0).  The restriction to dated rows is forced: a row with
a `NaT` date is dropped by the `groupby` (no `NaT` key) yet counted by the
Dashboard totals, and the identity fails — see the counterexample below. -/
theorem mensile_riconcilia (df : List Transaction)
    (h : ∀ t ∈ df, t.data.isSome = true) :
    ((mensile df).map RigaMensile.risparmio).sum = risparmioTotale df ∧
    (df ≠ [] →
      (risparmioCumulativo df).getLast? = some (risparmioTotale df)) := by
  have hgen : ∀ t ∈ df, ∃ m ∈ meseKeys df, annoMese t = some m := by
    intro t ht
    obtain ⟨d, hd⟩ := Option.isSome_iff_exists.mp (h t ht)
    exact ⟨(d.year, d.month), mem_meseKeys ht (by simp [annoMese, hd]),
      by simp [annoMese, hd]⟩
  have he : ((meseKeys df).map fun m => entrataMese df m).sum = totaleEntrate df := by
    unfold entrataMese totaleEntrate
    exact somma_partizione _ (nodup_meseKeys df) _ df (fun t ht _ => hgen t ht)
  have hu : ((meseKeys df).map fun m => uscitaMese df m).sum = totaleUscite df := by
    unfold uscitaMese totaleUscite
    exact somma_partizione _ (nodup_meseKeys df) _ df (fun t ht _ => hgen t ht)
  have hmap : (mensile df).map RigaMensile.risparmio =
      (meseKeys df).map fun m => entrataMese df m - uscitaMese df m := by
    unfold mensile
    rw [List.map_map]
    rfl
  have h1 : ((mensile df).map RigaMensile.risparmio).sum = risparmioTotale df := by
    rw [hmap, somma_map_sub, he, hu]
    rfl
  refine ⟨h1, fun hdf => ?_⟩
  have hKne : meseKeys df ≠ [] := by
    cases df with
    | nil => cases hdf rfl
    | cons t df' =>
      obtain ⟨m, hmK, _⟩ := hgen t (List.mem_cons_self t df')
      exact List.ne_nil_of_mem hmK
  have hlne : (mensile df).map RigaMensile.risparmio ≠ [] := by
    rw [hmap]
    exact fun hc => hKne (by simpa using hc)
  unfold risparmioCumulativo
  rw [cumsum_getLast hlne, h1]

/-- C1 witness: the reconciliation at the spec §8 scenario table. -/
theorem mensile_riconcilia_scenario :
    ((mensile dfScenario).map RigaMensile.risparmio).sum = risparmioTotale dfScenario ∧
    (dfScenario ≠ [] →
      (risparmioCumulativo dfScenario).getLast? = some (risparmioTotale dfScenario)) :=
  mensile_riconcilia dfScenario (by decide)

/-- C1 counterexample: on the table holding one single `NaT`-dated income
row of 100 the claimed identity fails — the monthly series is empty (its
savings sum to 0) while the Dashboard `totals` savings is 100. -/
theorem mensile_non_riconcilia_senza_data :
    ((mensile dfSenzaData).map RigaMensile.risparmio).sum ≠
      risparmioTotale dfSenzaData := by
  simp [mensile, meseKeys, dfSenzaData, annoMese, risparmioTotale, totaleEntrate,
    totaleUscite, somma]

/-- C2: the income-vs-expense remainder is exactly
`max(entrate_stipendio - spese_totali_mese, 0)` (lines 266 and 116) and is
therefore never negative, even when the month's expenses exceed the
designated income category's total. -/
theorem rimanente_eq_max_non_negativo (df : List Transaction) (m : Nat × Nat) :
    rimanente df m = max (entrateStipendio df m - speseTotaliMese df m) 0 ∧
    0 ≤ rimanente df m :=
  ⟨rfl, le_max_right _ _⟩

/-- C5 amended: an absent storage file (`FileNotFoundError`) or content
not parseable as JSON (`ValueError`) is recovered locally — `load_data`
returns the empty table, surfacing no error in those two cases.  (It is
not true of every storage state: parseable content without a `Data`
column surfaces a `KeyError`, see the counterexample.) -/
theorem load_tollera_guasti (s : Storage)
    (h : s = Storage.assente ∨ s = Storage.malformato) :
    load_data s = Except.ok [] := by
  rcases h with h | h <;> subst h <;> rfl

/-- C5 witness: the absent-file case. -/
theorem load_tollera_guasti_assente : load_data Storage.assente = Except.ok [] :=
  load_tollera_guasti Storage.assente (Or.inl rfl)

/-- C5 counterexample: `load_data` does surface an error for one storage
state — the file containing exactly `[]` parses to a column-less frame,
and the `df["Data"]` access raises `KeyError`, caught by nothing. -/
theorem load_solleva_keyerror :
    load_data (Storage.contenuto []) = Except.error LoadError.keyErrorData := rfl

/-- C8: on rows whose dates are valid calendar dates, the Report Composer's
day-level month filter (line 49) and its month-start-timestamp filter
(lines 95, 113) select exactly the same rows. -/
theorem filtri_mese_coincidono (df : List Transaction) (anno mese : Nat)
    (h : ∀ t ∈ df, t.data.map Date.valid = some true) :
    df.filter (filtroGiorno anno mese) = df.filter (filtroInizioMese anno mese) := by
  apply List.filter_congr
  intro t ht
  have hv := h t ht
  cases hd : t.data with
  | none => rw [hd] at hv; cases hv
  | some d =>
    unfold filtroGiorno filtroInizioMese annoMese
    rw [hd]
    rfl

/-- C8 witness: both filters at the scenario table for 2024-01. -/
theorem filtri_mese_scenario :
    dfScenario.filter (filtroGiorno 2024 1) =
      dfScenario.filter (filtroInizioMese 2024 1) :=
  filtri_mese_coincidono dfScenario 2024 1 (by decide)

/-- C9: a submission with an empty description or a non-positive amount is
rejected with the warning, and neither the in-memory table nor the storage
file changes (lines 196–210). -/
theorem aggiungi_rifiuta_invalidi (s : Stato) (f : Modulo)
    (h : f.descrizione = "" ∨ f.importo ≤ 0) :
    aggiungiOperazione s f = (s, Esito.avviso) := by
  unfold aggiungiOperazione
  rw [if_neg]
  rintro ⟨hd, hi⟩
  rcases h with h | h
  · exact hd h
  · exact absurd hi (not_lt.mpr h)

/-- C9 witness: the spec §8 scenario — an amount-0 submission against the
scenario store is rejected and the state is unchanged. -/
theorem aggiungi_rifiuta_zero :
    aggiungiOperazione ⟨dfScenario, save_data dfScenario⟩
      ⟨"spesa", 0, "Uscita", "Isybank", "Trasporti", ⟨2024, 3, 1⟩⟩ =
    (⟨dfScenario, save_data dfScenario⟩, Esito.avviso) :=
  aggiungi_rifiuta_invalidi _ _ (Or.inr (by decide))

/-- C4 counterexample: a stored record whose date cell fails to parse is
NOT excluded by `load_data` — the load succeeds and the row comes back
(a one-row table, not the empty one), with its date cell coerced to
`NaT`. -/
theorem load_non_scarta_data_invalida :
    load_data (Storage.contenuto [rigaCattiva]) ≠ Except.ok [] ∧
    load_data (Storage.contenuto [rigaCattiva]) =
      Except.ok [⟨none, "Isybank", "Uscita", "Trasporti", "metro", 5⟩] := by
  refine ⟨fun hc => ?_, rfl⟩
  rw [show load_data (Storage.contenuto [rigaCattiva]) =
    Except.ok [⟨none, "Isybank", "Uscita", "Trasporti", "metro", 5⟩] from rfl] at hc
  exact List.cons_ne_nil _ _ (Except.ok.inj hc)

/-- C4 amended: loading a non-empty record list keeps every stored row
(none dropped); a row's date cell is repaired to the parsed date when it
parses and to `NaT` (`none`) when it does not, all other fields kept as
stored. -/
theorem load_ripara_date (rows : List RawRow) (hne : rows ≠ []) :
    load_data (Storage.contenuto rows) = Except.ok (rows.map coerceRow) ∧
    (rows.map coerceRow).length = rows.length ∧
    (rows.map coerceRow).map Transaction.data =
      rows.map (fun r => r.data.bind parseIsoDate) ∧
    (rows.map coerceRow).map Transaction.descrizione =
      rows.map RawRow.descrizione := by
  obtain ⟨r, rs, rfl⟩ := List.exists_cons_of_ne_nil hne
  refine ⟨rfl, by simp, ?_, ?_⟩ <;>
    simp [coerceRow, List.map_map, Function.comp]

/-- C4 witness: the amended behavior at the one-record store whose date
cell is unparseable. -/
theorem load_ripara_date_esempio :
    load_data (Storage.contenuto [rigaCattiva]) =
      Except.ok ([rigaCattiva].map coerceRow) ∧
    ([rigaCattiva].map coerceRow).length = [rigaCattiva].length ∧
    ([rigaCattiva].map coerceRow).map Transaction.data =
      [rigaCattiva].map (fun r => r.data.bind parseIsoDate) ∧
    ([rigaCattiva].map coerceRow).map Transaction.descrizione =
      [rigaCattiva].map RawRow.descrizione :=
  load_ripara_date [rigaCattiva] (by decide)

/-- C10 counterexample: `genera_report_pdf` does not leave the frame it was
given unchanged — line 48 writes the derived `AnnoMese` column onto it
(here even though the requested month has no data at all). -/
theorem report_modifica_frame :
    (genera_report_pdf frProva 2 2024).2 ≠ frProva := by
  decide

/-- C10 amended: report composition is a stateless transform up to the
derived `AnnoMese` column it writes onto the input frame: it yields `None`
exactly when no row matches the requested month and a populated document
otherwise, and the transaction rows of the frame are left unchanged. -/
theorem report_senza_stato_salvo_colonna (fr : Frame) (mese anno : Nat) :
    ((genera_report_pdf fr mese anno).1 = none ↔
      fr.rows.filter (filtroGiorno anno mese) = []) ∧
    (genera_report_pdf fr mese anno).2.rows = fr.rows ∧
    (genera_report_pdf fr mese anno).2.annoMeseCol =
      some (fr.rows.map annoMese) := by
  unfold genera_report_pdf
  by_cases h : fr.rows.filter (filtroGiorno anno mese) = [] <;> simp [h]

/-- C3: the wallet series does NOT sign amounts — at a table holding one
single expense of 50, the Isybank cumulative value for 2024-01 is +50
(the raw `Importo` sum), not the −50 a signed (Income-positive,
Expense-negative) cumulative balance requires. -/
theorem portafogli_somma_non_segnata :
    portafogliMensili dfSpesa "Isybank" = [((2024, 1), 50)] ∧ ((50 : ℚ) ≠ -50) := by
  constructor
  · simp [portafogliMensili, meseKeys, dfSpesa, flussoPortafoglio, somma, cumsum,
      annoMese]
  · norm_num

lemma cifra_isDigit {k : Nat} (h : k < 10) : (cifra k).isDigit = true := by
  interval_cases k <;> decide

lemma valCifra_cifra {k : Nat} (h : k < 10) : valCifra (cifra k) = k := by
  interval_cases k <;> decide

lemma parse_isoOfDate {d : Date} (h : d.valid = true) :
    parseIsoDate (isoOfDate d) = some d := by
  obtain ⟨y, m, g⟩ := d
  have hb : 1678 ≤ y ∧ y ≤ 2261 ∧ 1 ≤ m ∧ m ≤ 12 ∧ 1 ≤ g ∧ g ≤ giorniMese y m := by
    simpa [Date.valid] using h
  have hred : parseIsoDate (isoOfDate ⟨y, m, g⟩) =
      mkData (cifra (y / 1000 % 10)) (cifra (y / 100 % 10)) (cifra (y / 10 % 10))
        (cifra (y % 10)) (cifra (m / 10 % 10)) (cifra (m % 10))
        (cifra (g / 10 % 10)) (cifra (g % 10)) := rfl
  rw [hred]
  have l10 : ∀ x : Nat, x % 10 < 10 := fun x => Nat.mod_lt _ (by norm_num)
  unfold mkData
  rw [if_pos (by simp [cifra_isDigit (l10 _)])]
  simp only [valCifra_cifra (l10 _)]
  have e2 : y / 100 / 10 = y / 1000 := by
    rw [Nat.div_div_eq_div_mul]
  have e3 : y / 10 / 10 = y / 100 := by
    rw [Nat.div_div_eq_div_mul]
  have hy : y / 1000 % 10 * 1000 + y / 100 % 10 * 100 + y / 10 % 10 * 10 + y % 10 = y := by
    omega
  have hm : m / 10 % 10 * 10 + m % 10 = m := by omega
  have hgm : giorniMese y m ≤ 31 := by
    unfold giorniMese
    split_ifs <;> omega
  have hg : g / 10 % 10 * 10 + g % 10 = g := by omega
  rw [hy, hm, hg, if_pos hb]

lemma coerce_row_round (t : Transaction) (h : t.valido = true) :
    coerceRow (rowOfTransaction t) = t := by
  obtain ⟨od, pf, tp, ct, ds, im⟩ := t
  cases od with
  | none => simp [Transaction.valido] at h
  | some d =>
    have hd : d.valid = true := by
      have := (Bool.and_eq_true _ _).mp ((Bool.and_eq_true _ _).mp h).1
      simpa using this.1
    simp [coerceRow, rowOfTransaction, parse_isoOfDate hd]

/-- C6 amended: persisting a NON-EMPTY table of valid rows and loading it
back reproduces the table exactly (dates survive the day-precision ISO
serialization).  Non-emptiness is forced: for the empty table the write is
`[]` and the reload raises `KeyError` — see the counterexample. -/
theorem load_save_roundtrip (df : List Transaction) (hne : df ≠ [])
    (h : ∀ t ∈ df, t.valido = true) :
    load_data (save_data df) = Except.ok df := by
  have hmap : (df.map rowOfTransaction).map coerceRow = df := by
    rw [List.map_map]
    have : ∀ t ∈ df, (coerceRow ∘ rowOfTransaction) t = id t :=
      fun t ht => coerce_row_round t (h t ht)
    rw [List.map_congr_left this, List.map_id]
  obtain ⟨t, ts, rfl⟩ := List.exists_cons_of_ne_nil hne
  show Except.ok ((rowOfTransaction t :: ts.map rowOfTransaction).map coerceRow) =
    Except.ok (t :: ts)
  rw [← List.map_cons, hmap]

/-- C6 witness: the round trip at the one-expense table. -/
theorem load_save_roundtrip_spesa :
    load_data (save_data dfSpesa) = Except.ok dfSpesa :=
  load_save_roundtrip dfSpesa (by decide) (by decide)

/-- C6 counterexample: the round trip fails at the empty table, a valid
transaction set — `save_data` writes `[]`, and the reload surfaces the
uncaught `KeyError` instead of returning the empty sequence. -/
theorem roundtrip_fallisce_vuoto :
    (∀ t ∈ ([] : List Transaction), t.valido = true) ∧
    load_data (save_data ([] : List Transaction)) =
      Except.error LoadError.keyErrorData :=
  ⟨by simp, rfl⟩

/-- C7: the category breakdown holds exactly one entry per category that
has an expense in the requested month, carrying that category's summed
amount, in (weakly) descending amount order — so every entry comes from an
Expense-kind row of that month — and it is empty precisely when the month
has no expenses. -/
theorem spese_categoria_ordinate (df : List Transaction) (m : Nat × Nat) :
    (speseCategoria df m).Pairwise (fun a b => b.2 ≤ a.2) ∧
    (∀ c q, (c, q) ∈ speseCategoria df m ↔
      ((∃ t ∈ speseMese df m, t.categoria = c) ∧ q = sommaCategoria df m c)) ∧
    ((speseCategoria df m).map Prod.fst).Nodup ∧
    (speseCategoria df m = [] ↔ speseMese df m = []) := by
  have hperm : List.Perm (speseCategoria df m)
      ((categorieSpese df m).map fun c => (c, sommaCategoria df m c)) :=
    List.perm_insertionSort importoGe _
  refine ⟨?_, ?_, ?_, ?_⟩
  · exact List.Pairwise.imp (fun h => h)
      (List.sorted_insertionSort importoGe
        ((categorieSpese df m).map fun c => (c, sommaCategoria df m c)))
  · intro c q
    rw [hperm.mem_iff, List.mem_map]
    constructor
    · rintro ⟨c', hc', heq⟩
      injection heq with h1 h2
      subst h1
      subst h2
      obtain ⟨t, ht, hcat⟩ := List.mem_map.mp (List.mem_dedup.mp hc')
      exact ⟨⟨t, ht, hcat⟩, rfl⟩
    · rintro ⟨⟨t, ht, hcat⟩, rfl⟩
      exact ⟨c, List.mem_dedup.mpr (List.mem_map.mpr ⟨t, ht, hcat⟩), rfl⟩
  · have hp2 : ((speseCategoria df m).map Prod.fst).Perm (categorieSpese df m) := by
      have := hperm.map Prod.fst
      rwa [List.map_map, show (Prod.fst ∘ fun c => (c, sommaCategoria df m c)) = id
        from rfl, List.map_id] at this
    exact hp2.nodup_iff.mpr (List.nodup_dedup _)
  · rw [← List.length_eq_zero, hperm.length_eq, List.length_eq_zero,
      List.map_eq_nil_iff]
    unfold categorieSpese
    rw [List.dedup_eq_nil, List.map_eq_nil_iff]
